import Mathlib

/-!
Verification of the bloopiT repository: a small HTTP service relaying Stripe
checkout and subscription webhook events into a Supabase table, plus an
endpoint creating Stripe Checkout sessions.

The repository contains three webhook-handler variants and two
create-checkout variants:

- serverWebhook embeds the handler in server.js (app.post on /api/webhook);
- routeWebhook embeds src/src/app/api/webhook/route.ts (logs only, no DB);
- part001Webhook embeds src/unnamed/part_001 (Next.js handler with Supabase);
- serverCreateCheckout embeds the /api/create-checkout route of server.js;
- part000CreateCheckout embeds src/unnamed/part_000.

Shallow-embedding conventions: the Supabase table is a list of records; a
Supabase insert or update returns data or an error value, never throwing;
the JS code throws the error, which the catch block of the route turns into
a 400 response.  The outcome of stripe.webhooks.constructEvent (which throws
when the stripe-signature header is missing or does not verify against the
raw body and the webhook secret) is passed in as an Except value: error
carries the thrown message, ok carries the parsed event.  The provider call
stripe.subscriptions.retrieve is passed in as a function returning Option
(none meaning the provider lookup throws).  A JS Date built from a number n
of milliseconds and serialized with toISOString is modelled by the integer n
itself, so the unit handling (multiplying epoch seconds by 1000 or not)
stays visible.
-/

namespace BloopiT

/-- A price object inside a subscription line item. -/
structure Price where
  id : String
deriving Repr, DecidableEq

/-- A subscription line item, as in subscription.items.data entries. -/
structure LineItem where
  price : Price
deriving Repr, DecidableEq

/-- The items field of a Stripe subscription: a paginated list wrapper. -/
structure ItemsList where
  data : List LineItem
deriving Repr, DecidableEq

/-- The full subscription object returned by stripe.subscriptions.retrieve. -/
structure StripeSubscription where
  id : String
  status : String
  current_period_end : Int
  current_period_start : Int
  cancel_at_period_end : Bool
  items : ItemsList
deriving Repr, DecidableEq

/-- The data.object of a checkout.session.completed event. -/
structure CheckoutSession where
  client_reference_id : String
  subscription : String
  customer : String
deriving Repr, DecidableEq

/-- The data.object of a customer.subscription.updated or deleted event. -/
structure SubscriptionObject where
  id : String
  status : String
  current_period_end : Int
  cancel_at_period_end : Bool
deriving Repr, DecidableEq

/-- A verified Stripe event, after the switch on event.type.  The
customer.subscription.created case of the Next.js variants only logs, exactly
like the default case, so it is folded into otherEvent. -/
inductive StripeEvent where
  | checkoutSessionCompleted (session : CheckoutSession)
  | customerSubscriptionUpdated (s : SubscriptionObject)
  | customerSubscriptionDeleted (s : SubscriptionObject)
  | otherEvent (eventType : String)
deriving Repr, DecidableEq

/-- An HTTP response: status code and body. -/
structure HttpResponse where
  status : Nat
  body : String
deriving Repr, DecidableEq

/-- A row of the subscriptions table as written by server.js. -/
structure SubRecord where
  user_id : String
  stripe_subscription_id : String
  stripe_customer_id : String
  price_id : String
  status : String
  current_period_end : Int
  cancel_at_period_end : Bool
deriving Repr, DecidableEq

/-- Supabase insert into the subscriptions table.  The schema carries a
uniqueness constraint on stripe_subscription_id, so inserting a row whose
stripe_subscription_id already exists yields a duplicate-key error and
leaves the table unchanged. -/
def insertSubscription (db : List SubRecord) (r : SubRecord) :
    Except String (List SubRecord) :=
  if db.any (fun x => x.stripe_subscription_id == r.stripe_subscription_id) then
    Except.error "duplicate key value violates unique constraint"
  else
    Except.ok (db ++ [r])

/-- Supabase update(...).eq(stripe_subscription_id, subId): applies f to every
row matching subId and leaves the rest alone.  Matching zero rows is not an
error for Supabase, so this returns the new table directly. -/
def updateWhere (db : List SubRecord) (subId : String)
    (f : SubRecord → SubRecord) : List SubRecord :=
  db.map (fun r => if r.stripe_subscription_id == subId then f r else r)

/-- The subscriptionData object built in the checkout.session.completed case
of server.js.  current_period_end is new Date(sub.current_period_end * 1000)
serialized, modelled as the millisecond count. -/
def checkoutRecord (session : CheckoutSession)
    (subscription : StripeSubscription) (firstItem : LineItem) : SubRecord :=
  { user_id := session.client_reference_id
    stripe_subscription_id := session.subscription
    stripe_customer_id := session.customer
    price_id := firstItem.price.id
    status := subscription.status
    current_period_end := subscription.current_period_end * 1000
    cancel_at_period_end := subscription.cancel_at_period_end }

/-- The update object of the customer.subscription.updated case of
server.js: status, current_period_end (seconds times 1000) and
cancel_at_period_end, nothing else. -/
def applyUpdatedEvent (s : SubscriptionObject) (r : SubRecord) : SubRecord :=
  { r with
    status := s.status
    current_period_end := s.current_period_end * 1000
    cancel_at_period_end := s.cancel_at_period_end }

/-- The update object of the customer.subscription.deleted case of
server.js: only the status field, set to the literal canceled. -/
def applyDeletedEvent (r : SubRecord) : SubRecord :=
  { r with status := "canceled" }

/-- The /api/webhook handler of server.js.  eventResult is the outcome of
stripe.webhooks.constructEvent on the raw body, the stripe-signature header
and the webhook secret: the library throws when the header is missing or the
signature does not verify, which lands in the catch block producing a 400
whose body interpolates err.message.  retrieve models
stripe.subscriptions.retrieve; none means the call throws (this also lands
in the catch).  Reading items.data[0] of a subscription with zero line items
throws a TypeError in JS, likewise caught into a 400.  Returns the response
and the table after the request. -/
def serverWebhook (retrieve : String → Option StripeSubscription)
    (db : List SubRecord) (eventResult : Except String StripeEvent) :
    HttpResponse × List SubRecord :=
  match eventResult with
  | Except.error msg => (⟨400, "Webhook Error: " ++ msg⟩, db)
  | Except.ok event =>
    match event with
    | StripeEvent.checkoutSessionCompleted session =>
      match retrieve session.subscription with
      | none =>
        (⟨400, "Webhook Error: No such subscription: " ++ session.subscription⟩, db)
      | some subscription =>
        match subscription.items.data with
        | [] =>
          (⟨400, "Webhook Error: Cannot read properties of undefined"⟩, db)
        | firstItem :: _ =>
          match insertSubscription db (checkoutRecord session subscription firstItem) with
          | Except.error e => (⟨400, "Webhook Error: " ++ e⟩, db)
          | Except.ok db2 => (⟨200, "received: true"⟩, db2)
    | StripeEvent.customerSubscriptionUpdated s =>
      (⟨200, "received: true"⟩, updateWhere db s.id (applyUpdatedEvent s))
    | StripeEvent.customerSubscriptionDeleted s =>
      (⟨200, "received: true"⟩, updateWhere db s.id applyDeletedEvent)
    | StripeEvent.otherEvent _ => (⟨200, "received: true"⟩, db)

/-- The webhook handler of src/src/app/api/webhook/route.ts.  A missing
stripe-signature header is rejected before the try block; a constructEvent
failure is caught and answered with a fixed message that does not depend on
the thrown error; every event case only logs, so there is no persistence and
the success answer is 200. -/
def routeWebhook (signature : Option String)
    (eventResult : Except String StripeEvent) : HttpResponse :=
  match signature with
  | none => ⟨400, "Missing stripe-signature header"⟩
  | some _ =>
    match eventResult with
    | Except.error _ => ⟨400, "Webhook signature verification failed"⟩
    | Except.ok _ => ⟨200, "received: true"⟩

/-- A row of the subscriptions table as written by src/unnamed/part_001. -/
structure Part001Record where
  user_id : String
  subscription_id : String
  status : String
  current_period_end : Int
  current_period_start : Int
  price_id : String
  cancel_at_period_end : Bool
  created_at : Int
  updated_at : Int
deriving Repr, DecidableEq

/-- The row built in the checkout.session.completed case of part_001.  Note
that current_period_end and current_period_start are passed to Date WITHOUT
multiplying by 1000: the provider epoch-seconds value is used as a
millisecond count directly.  created_at and updated_at are new Date()
serialized, modelled by now. -/
def part001CheckoutRecord (session : CheckoutSession)
    (subscription : StripeSubscription) (firstItem : LineItem)
    (now : Int) : Part001Record :=
  { user_id := session.client_reference_id
    subscription_id := subscription.id
    status := subscription.status
    current_period_end := subscription.current_period_end
    current_period_start := subscription.current_period_start
    price_id := firstItem.price.id
    cancel_at_period_end := subscription.cancel_at_period_end
    created_at := now
    updated_at := now }

/-- Supabase insert for the part_001 table, with the uniqueness constraint
on the subscription id column. -/
def part001Insert (db : List Part001Record) (r : Part001Record) :
    Except String (List Part001Record) :=
  if db.any (fun x => x.subscription_id == r.subscription_id) then
    Except.error "duplicate key value violates unique constraint"
  else
    Except.ok (db ++ [r])

/-- The webhook handler of src/unnamed/part_001.  Missing signature is
rejected before the try block; any throw inside the try (constructEvent
failure, provider lookup failure, empty line-item list, insert error) is
caught and answered 400 with the same fixed message; updated, deleted and
created events only log. -/
def part001Webhook (retrieve : String → Option StripeSubscription)
    (db : List Part001Record) (signature : Option String)
    (eventResult : Except String StripeEvent) (now : Int) :
    HttpResponse × List Part001Record :=
  match signature with
  | none => (⟨400, "Missing stripe-signature header"⟩, db)
  | some _ =>
    match eventResult with
    | Except.error _ => (⟨400, "Webhook signature verification failed"⟩, db)
    | Except.ok event =>
      match event with
      | StripeEvent.checkoutSessionCompleted session =>
        match retrieve session.subscription with
        | none => (⟨400, "Webhook signature verification failed"⟩, db)
        | some subscription =>
          match subscription.items.data with
          | [] => (⟨400, "Webhook signature verification failed"⟩, db)
          | firstItem :: _ =>
            match part001Insert db
                (part001CheckoutRecord session subscription firstItem now) with
            | Except.error _ =>
              (⟨400, "Webhook signature verification failed"⟩, db)
            | Except.ok db2 => (⟨200, "received: true"⟩, db2)
      | _ => (⟨200, "received: true"⟩, db)

/-- The parameters passed to stripe.checkout.sessions.create. -/
structure CheckoutSessionParams where
  mode : String
  client_reference_id : String
  price : String
  quantity : Nat
  success_url : String
  cancel_url : String
deriving Repr, DecidableEq

/-- The session object returned by stripe.checkout.sessions.create. -/
structure CheckoutSessionResult where
  id : String
  url : String
deriving Repr, DecidableEq

/-- JS truthiness test used by the guard if (!priceId || !userId): a field is
falsy when absent (undefined) or the empty string. -/
def jsFalsy : Option String → Bool
  | none => true
  | some s => s.isEmpty

/-- The /api/create-checkout handler of server.js.  createSession models
stripe.checkout.sessions.create; error means the provider call throws, which
the catch block answers with a fixed 500 body that never contains the
provider error.  The second component counts provider calls made. -/
def serverCreateCheckout
    (createSession : CheckoutSessionParams → Except String CheckoutSessionResult)
    (appUrl : String) (priceId userId : Option String) :
    HttpResponse × Nat :=
  if jsFalsy priceId || jsFalsy userId then
    (⟨400, "Price ID and User ID are required"⟩, 0)
  else
    match createSession
        { mode := "subscription"
          client_reference_id := userId.getD ""
          price := priceId.getD ""
          quantity := 1
          success_url := appUrl ++ "?session_id=\x7bCHECKOUT_SESSION_ID\x7d"
          cancel_url := appUrl } with
    | Except.error _ => (⟨500, "Error creating checkout session"⟩, 1)
    | Except.ok session =>
      (⟨200, "sessionId: " ++ session.id ++ ", url: " ++ session.url⟩, 1)

/-- The create-checkout handler of src/unnamed/part_000: same validation and
error translation as the server.js one, different redirect URLs. -/
def part000CreateCheckout
    (createSession : CheckoutSessionParams → Except String CheckoutSessionResult)
    (appUrl : String) (priceId userId : Option String) :
    HttpResponse × Nat :=
  if jsFalsy priceId || jsFalsy userId then
    (⟨400, "Price ID and User ID are required"⟩, 0)
  else
    match createSession
        { mode := "subscription"
          client_reference_id := userId.getD ""
          price := priceId.getD ""
          quantity := 1
          success_url := appUrl ++ "/success?session_id=\x7bCHECKOUT_SESSION_ID\x7d"
          cancel_url := appUrl ++ "/canceled" } with
    | Except.error _ => (⟨500, "Error creating checkout session"⟩, 1)
    | Except.ok session =>
      (⟨200, "sessionId: " ++ session.id ++ ", url: " ++ session.url⟩, 1)

/-- Boolean test that one character list starts with another. -/
def listStartsWith : List Char → List Char → Bool
  | [], _ => true
  | _ :: _, [] => false
  | a :: as, b :: bs => a == b && listStartsWith as bs

/-- Boolean test that sub occurs as a contiguous segment of the list. -/
def listHasSegment (sub : List Char) : List Char → Bool
  | [] => listStartsWith sub []
  | c :: t => listStartsWith sub (c :: t) || listHasSegment sub t

/-- Boolean test that sub occurs as a substring of s. -/
def strContains (s sub : String) : Bool :=
  listHasSegment sub.toList s.toList

theorem listStartsWith_append (sub r : List Char) :
    listStartsWith sub (sub ++ r) = true := by
  induction sub with
  | nil => rfl
  | cons a as ih => simp [listStartsWith, ih]

theorem listHasSegment_append (a sub : List Char) :
    listHasSegment sub (a ++ sub) = true := by
  induction a with
  | nil =>
    cases sub with
    | nil => rfl
    | cons c t =>
      simp only [List.nil_append, listHasSegment]
      have h := listStartsWith_append (c :: t) []
      simp only [List.append_nil] at h
      simp [h]
  | cons c t ih => simp [listHasSegment, ih]

theorem strContains_append (a b : String) : strContains (a ++ b) b = true := by
  have h : (a ++ b).toList = a.toList ++ b.toList := by
    simp [String.toList]
  simp [strContains, h, listHasSegment_append]

/-- Rows whose stripe_subscription_id misses the event id are untouched by a
Supabase update keyed on it. -/
theorem updateWhere_no_match (db : List SubRecord) (subId : String)
    (f : SubRecord → SubRecord)
    (h : ∀ r ∈ db, r.stripe_subscription_id ≠ subId) :
    updateWhere db subId f = db := by
  induction db with
  | nil => rfl
  | cons a t ih =>
    have ha : a.stripe_subscription_id ≠ subId := h a (List.mem_cons_self a t)
    have ht : ∀ r ∈ t, r.stripe_subscription_id ≠ subId :=
      fun r hr => h r (List.mem_cons_of_mem a hr)
    simp only [updateWhere, List.map_cons] at ih ⊢
    rw [if_neg (by simpa using ha), ih ht]

/-- Sample checkout event payload used by concrete evaluations. -/
def sampleSession : CheckoutSession :=
  { client_reference_id := "user_abc"
    subscription := "sub_123"
    customer := "cus_123" }

/-- Sample fetched subscription: period boundary 1893456000 is the epoch
seconds of 2030-01-01T00:00:00Z. -/
def sampleSubscription : StripeSubscription :=
  { id := "sub_123"
    status := "active"
    current_period_end := 1893456000
    current_period_start := 1890864000
    cancel_at_period_end := false
    items := ⟨[⟨⟨"price_123"⟩⟩]⟩ }

/-- Sample provider: stripe.subscriptions.retrieve resolves sub_123 only. -/
def sampleRetrieve : String → Option StripeSubscription := fun subId =>
  if subId == "sub_123" then some sampleSubscription else none

/-- C2: period-boundary units diverge between variants.  On the sample event
whose provider value is 1893456000 epoch seconds, the server.js insert path
stores 1893456000 * 1000 milliseconds, the server.js update path stores the
same millisecond count, but the part_001 insert path stores the raw 1893456000
as a millisecond count, so the multiplication by 1000 is NOT applied in every
variant. -/
theorem c2_period_unit_divergence :
    ((serverWebhook sampleRetrieve []
        (Except.ok (StripeEvent.checkoutSessionCompleted sampleSession))).2.map
      (fun r => r.current_period_end)) = [1893456000 * 1000] ∧
    ((serverWebhook sampleRetrieve
        [checkoutRecord sampleSession sampleSubscription ⟨⟨"price_123"⟩⟩]
        (Except.ok (StripeEvent.customerSubscriptionUpdated
          ⟨"sub_123", "active", 1893456000, false⟩))).2.map
      (fun r => r.current_period_end)) = [1893456000 * 1000] ∧
    ((part001Webhook sampleRetrieve [] (some "t=1,v1=abc")
        (Except.ok (StripeEvent.checkoutSessionCompleted sampleSession)) 0).2.map
      (fun r => r.current_period_end)) = [1893456000] ∧
    (1893456000 : Int) ≠ 1893456000 * 1000 := by
  refine ⟨rfl, rfl, rfl, by decide⟩

/-- C3: a request whose stripe-signature header is absent or whose signature
fails verification is answered 400 and never reaches the mapper: the table is
returned unchanged in every variant.  For server.js both cases surface as a
constructEvent throw, modelled as the error outcome; the Next.js variants
additionally reject a missing header before the try block. -/
theorem c3_invalid_signature_rejected
    (retrieve : String → Option StripeSubscription) (db : List SubRecord)
    (db1 : List Part001Record) (msg sig : String) (now : Int)
    (ev : Except String StripeEvent) :
    serverWebhook retrieve db (Except.error msg) =
      (⟨400, "Webhook Error: " ++ msg⟩, db) ∧
    (routeWebhook none ev).status = 400 ∧
    (routeWebhook (some sig) (Except.error msg)).status = 400 ∧
    part001Webhook retrieve db1 none ev now =
      (⟨400, "Missing stripe-signature header"⟩, db1) ∧
    part001Webhook retrieve db1 (some sig) (Except.error msg) now =
      (⟨400, "Webhook signature verification failed"⟩, db1) :=
  ⟨rfl, rfl, rfl, rfl, rfl⟩

/-- C4: a second delivery of the same checkout.session.completed event leaves
exactly one row in the table, but the server.js endpoint answers 400, not
200: the duplicate-key error from the insert is thrown and caught into the
generic webhook error response, so it is escalated to a failure rather than
treated as success-equivalent. -/
theorem c4_duplicate_delivery_returns_400 :
    (serverWebhook sampleRetrieve []
      (Except.ok (StripeEvent.checkoutSessionCompleted sampleSession))).1.status
        = 200 ∧
    (serverWebhook sampleRetrieve []
      (Except.ok (StripeEvent.checkoutSessionCompleted sampleSession))).2.length
        = 1 ∧
    (serverWebhook sampleRetrieve
        (serverWebhook sampleRetrieve []
          (Except.ok (StripeEvent.checkoutSessionCompleted sampleSession))).2
        (Except.ok (StripeEvent.checkoutSessionCompleted sampleSession))) =
      (⟨400, "Webhook Error: duplicate key value violates unique constraint"⟩,
        (serverWebhook sampleRetrieve []
          (Except.ok (StripeEvent.checkoutSessionCompleted sampleSession))).2) :=
  ⟨rfl, rfl, rfl⟩

/-- C1: a verified checkout.session.completed event whose subscription id
resolves at the provider to a subscription with at least one line item, and
whose id is not yet in the table, makes the server.js handler insert exactly
one row: user_id is the session client_reference_id, stripe_customer_id is
the session customer, price_id is the price id of the first line item of the
FETCHED subscription, and status, current_period_end (seconds times 1000)
and cancel_at_period_end come from the fetched subscription. -/
theorem c1_checkout_insert
    (retrieve : String → Option StripeSubscription) (db : List SubRecord)
    (session : CheckoutSession) (subscription : StripeSubscription)
    (firstItem : LineItem) (rest : List LineItem)
    (hret : retrieve session.subscription = some subscription)
    (hitems : subscription.items.data = firstItem :: rest)
    (hfresh : ∀ r ∈ db, r.stripe_subscription_id ≠ session.subscription) :
    serverWebhook retrieve db
        (Except.ok (StripeEvent.checkoutSessionCompleted session)) =
      (⟨200, "received: true"⟩,
        db ++ [{ user_id := session.client_reference_id
                 stripe_subscription_id := session.subscription
                 stripe_customer_id := session.customer
                 price_id := firstItem.price.id
                 status := subscription.status
                 current_period_end := subscription.current_period_end * 1000
                 cancel_at_period_end := subscription.cancel_at_period_end }]) ∧
    ((serverWebhook retrieve db
        (Except.ok (StripeEvent.checkoutSessionCompleted session))).2.filter
      (fun r => r.stripe_subscription_id == session.subscription)).length = 1 := by
  have hany : db.any
      (fun x => x.stripe_subscription_id == session.subscription) = false := by
    simp only [List.any_eq_false, beq_iff_eq]
    exact hfresh
  have hrun : serverWebhook retrieve db
      (Except.ok (StripeEvent.checkoutSessionCompleted session)) =
      (⟨200, "received: true"⟩,
        db ++ [checkoutRecord session subscription firstItem]) := by
    simp only [serverWebhook, hret, hitems, insertSubscription, checkoutRecord]
    rw [hany]
    rfl
  refine ⟨hrun, ?_⟩
  rw [hrun]
  simp only [List.filter_append, List.length_append]
  have h1 : db.filter
      (fun r => r.stripe_subscription_id == session.subscription) = [] := by
    rw [List.filter_eq_nil_iff]
    intro a ha
    simpa using hfresh a ha
  have h2 : [checkoutRecord session subscription firstItem].filter
      (fun r => r.stripe_subscription_id == session.subscription) =
      [checkoutRecord session subscription firstItem] := by
    simp [checkoutRecord]
  rw [h1, h2]
  rfl

/-- Witness for C1 at the sample event against an empty table. -/
theorem c1_checkout_insert_witness :
    serverWebhook sampleRetrieve []
        (Except.ok (StripeEvent.checkoutSessionCompleted sampleSession)) =
      (⟨200, "received: true"⟩,
        [] ++ [{ user_id := sampleSession.client_reference_id
                 stripe_subscription_id := sampleSession.subscription
                 stripe_customer_id := sampleSession.customer
                 price_id := "price_123"
                 status := sampleSubscription.status
                 current_period_end := sampleSubscription.current_period_end * 1000
                 cancel_at_period_end := sampleSubscription.cancel_at_period_end }]) ∧
    ((serverWebhook sampleRetrieve []
        (Except.ok (StripeEvent.checkoutSessionCompleted sampleSession))).2.filter
      (fun r => r.stripe_subscription_id == sampleSession.subscription)).length = 1 :=
  c1_checkout_insert sampleRetrieve [] sampleSession sampleSubscription
    ⟨⟨"price_123"⟩⟩ [] rfl rfl (by simp)

/-- C5: a customer.subscription.updated event makes the server.js handler
answer 200 and rewrite the table pointwise: the rows matching the event id
get exactly status, current_period_end and cancel_at_period_end overwritten
from the event (user_id, price_id, stripe_customer_id and
stripe_subscription_id are carried over unchanged), and every row not
matching the event id is returned identically. -/
theorem c5_updated_event_frame
    (retrieve : String → Option StripeSubscription) (db : List SubRecord)
    (s : SubscriptionObject) :
    serverWebhook retrieve db
        (Except.ok (StripeEvent.customerSubscriptionUpdated s)) =
      (⟨200, "received: true"⟩,
        db.map (fun r =>
          if r.stripe_subscription_id == s.id then applyUpdatedEvent s r else r)) ∧
    (∀ r : SubRecord,
      (applyUpdatedEvent s r).status = s.status ∧
      (applyUpdatedEvent s r).current_period_end = s.current_period_end * 1000 ∧
      (applyUpdatedEvent s r).cancel_at_period_end = s.cancel_at_period_end ∧
      (applyUpdatedEvent s r).user_id = r.user_id ∧
      (applyUpdatedEvent s r).price_id = r.price_id ∧
      (applyUpdatedEvent s r).stripe_customer_id = r.stripe_customer_id ∧
      (applyUpdatedEvent s r).stripe_subscription_id = r.stripe_subscription_id) ∧
    (∀ r : SubRecord, r.stripe_subscription_id ≠ s.id →
      (if r.stripe_subscription_id == s.id then applyUpdatedEvent s r else r) = r) := by
  refine ⟨rfl, fun r => ⟨rfl, rfl, rfl, rfl, rfl, rfl, rfl⟩, fun r h => ?_⟩
  rw [if_neg (by simpa using h)]

/-- Witness for C5 at a concrete table of two rows, one matching. -/
theorem c5_updated_event_frame_witness :
    serverWebhook sampleRetrieve
        [checkoutRecord sampleSession sampleSubscription ⟨⟨"price_123"⟩⟩]
        (Except.ok (StripeEvent.customerSubscriptionUpdated
          ⟨"sub_123", "past_due", 1896134400, true⟩)) =
      (⟨200, "received: true"⟩,
        [checkoutRecord sampleSession sampleSubscription ⟨⟨"price_123"⟩⟩].map
          (fun r => if r.stripe_subscription_id == SubscriptionObject.id
              ⟨"sub_123", "past_due", 1896134400, true⟩ then
            applyUpdatedEvent ⟨"sub_123", "past_due", 1896134400, true⟩ r else r)) ∧
    (∀ r : SubRecord,
      (applyUpdatedEvent ⟨"sub_123", "past_due", 1896134400, true⟩ r).status
          = "past_due" ∧
      (applyUpdatedEvent ⟨"sub_123", "past_due", 1896134400, true⟩ r).current_period_end
          = 1896134400 * 1000 ∧
      (applyUpdatedEvent ⟨"sub_123", "past_due", 1896134400, true⟩ r).cancel_at_period_end
          = true ∧
      (applyUpdatedEvent ⟨"sub_123", "past_due", 1896134400, true⟩ r).user_id
          = r.user_id ∧
      (applyUpdatedEvent ⟨"sub_123", "past_due", 1896134400, true⟩ r).price_id
          = r.price_id ∧
      (applyUpdatedEvent ⟨"sub_123", "past_due", 1896134400, true⟩ r).stripe_customer_id
          = r.stripe_customer_id ∧
      (applyUpdatedEvent ⟨"sub_123", "past_due", 1896134400, true⟩ r).stripe_subscription_id
          = r.stripe_subscription_id) ∧
    (∀ r : SubRecord, r.stripe_subscription_id ≠ "sub_123" →
      (if r.stripe_subscription_id == SubscriptionObject.id
          ⟨"sub_123", "past_due", 1896134400, true⟩ then
        applyUpdatedEvent ⟨"sub_123", "past_due", 1896134400, true⟩ r else r) = r) :=
  c5_updated_event_frame sampleRetrieve
    [checkoutRecord sampleSession sampleSubscription ⟨⟨"price_123"⟩⟩]
    ⟨"sub_123", "past_due", 1896134400, true⟩

/-- C6: a customer.subscription.deleted event makes the server.js handler
set status to the literal canceled on the rows matching the event id,
carrying every other field over unchanged; rows not matching are returned
identically, and the table keeps its length, so no row is deleted. -/
theorem c6_deleted_event_frame
    (retrieve : String → Option StripeSubscription) (db : List SubRecord)
    (s : SubscriptionObject) :
    serverWebhook retrieve db
        (Except.ok (StripeEvent.customerSubscriptionDeleted s)) =
      (⟨200, "received: true"⟩,
        db.map (fun r =>
          if r.stripe_subscription_id == s.id then applyDeletedEvent r else r)) ∧
    (serverWebhook retrieve db
        (Except.ok (StripeEvent.customerSubscriptionDeleted s))).2.length
      = db.length ∧
    (∀ r : SubRecord,
      (applyDeletedEvent r).status = "canceled" ∧
      (applyDeletedEvent r).user_id = r.user_id ∧
      (applyDeletedEvent r).price_id = r.price_id ∧
      (applyDeletedEvent r).stripe_customer_id = r.stripe_customer_id ∧
      (applyDeletedEvent r).stripe_subscription_id = r.stripe_subscription_id ∧
      (applyDeletedEvent r).current_period_end = r.current_period_end ∧
      (applyDeletedEvent r).cancel_at_period_end = r.cancel_at_period_end) ∧
    (∀ r : SubRecord, r.stripe_subscription_id ≠ s.id →
      (if r.stripe_subscription_id == s.id then applyDeletedEvent r else r) = r) := by
  refine ⟨rfl, by simp [serverWebhook, updateWhere],
    fun r => ⟨rfl, rfl, rfl, rfl, rfl, rfl, rfl⟩, fun r h => ?_⟩
  rw [if_neg (by simpa using h)]

/-- Witness for C6 at a concrete one-row table. -/
theorem c6_deleted_event_frame_witness :
    serverWebhook sampleRetrieve
        [checkoutRecord sampleSession sampleSubscription ⟨⟨"price_123"⟩⟩]
        (Except.ok (StripeEvent.customerSubscriptionDeleted
          ⟨"sub_123", "canceled", 1893456000, false⟩)) =
      (⟨200, "received: true"⟩,
        [checkoutRecord sampleSession sampleSubscription ⟨⟨"price_123"⟩⟩].map
          (fun r => if r.stripe_subscription_id == SubscriptionObject.id
              ⟨"sub_123", "canceled", 1893456000, false⟩ then
            applyDeletedEvent r else r)) ∧
    (serverWebhook sampleRetrieve
        [checkoutRecord sampleSession sampleSubscription ⟨⟨"price_123"⟩⟩]
        (Except.ok (StripeEvent.customerSubscriptionDeleted
          ⟨"sub_123", "canceled", 1893456000, false⟩))).2.length = 1 ∧
    (∀ r : SubRecord,
      (applyDeletedEvent r).status = "canceled" ∧
      (applyDeletedEvent r).user_id = r.user_id ∧
      (applyDeletedEvent r).price_id = r.price_id ∧
      (applyDeletedEvent r).stripe_customer_id = r.stripe_customer_id ∧
      (applyDeletedEvent r).stripe_subscription_id = r.stripe_subscription_id ∧
      (applyDeletedEvent r).current_period_end = r.current_period_end ∧
      (applyDeletedEvent r).cancel_at_period_end = r.cancel_at_period_end) ∧
    (∀ r : SubRecord, r.stripe_subscription_id ≠ "sub_123" →
      (if r.stripe_subscription_id == SubscriptionObject.id
          ⟨"sub_123", "canceled", 1893456000, false⟩ then
        applyDeletedEvent r else r) = r) :=
  c6_deleted_event_frame sampleRetrieve
    [checkoutRecord sampleSession sampleSubscription ⟨⟨"price_123"⟩⟩]
    ⟨"sub_123", "canceled", 1893456000, false⟩

/-- C7: a verified deleted or updated event whose id matches no row leaves
the table exactly as it was (zero rows affected), raises no error, and the
server.js endpoint answers 200. -/
theorem c7_zero_rows_noop
    (retrieve : String → Option StripeSubscription) (db : List SubRecord)
    (s : SubscriptionObject)
    (hnone : ∀ r ∈ db, r.stripe_subscription_id ≠ s.id) :
    serverWebhook retrieve db
        (Except.ok (StripeEvent.customerSubscriptionDeleted s)) =
      (⟨200, "received: true"⟩, db) ∧
    serverWebhook retrieve db
        (Except.ok (StripeEvent.customerSubscriptionUpdated s)) =
      (⟨200, "received: true"⟩, db) := by
  constructor
  · have hd : serverWebhook retrieve db
        (Except.ok (StripeEvent.customerSubscriptionDeleted s)) =
        (⟨200, "received: true"⟩, updateWhere db s.id applyDeletedEvent) := rfl
    rw [hd, updateWhere_no_match db s.id _ hnone]
  · have hu : serverWebhook retrieve db
        (Except.ok (StripeEvent.customerSubscriptionUpdated s)) =
        (⟨200, "received: true"⟩,
          updateWhere db s.id (applyUpdatedEvent s)) := rfl
    rw [hu, updateWhere_no_match db s.id _ hnone]

/-- Witness for C7: a deleted event for sub_789 against a table holding only
sub_123. -/
theorem c7_zero_rows_noop_witness :
    serverWebhook sampleRetrieve
        [checkoutRecord sampleSession sampleSubscription ⟨⟨"price_123"⟩⟩]
        (Except.ok (StripeEvent.customerSubscriptionDeleted
          ⟨"sub_789", "canceled", 0, false⟩)) =
      (⟨200, "received: true"⟩,
        [checkoutRecord sampleSession sampleSubscription ⟨⟨"price_123"⟩⟩]) ∧
    serverWebhook sampleRetrieve
        [checkoutRecord sampleSession sampleSubscription ⟨⟨"price_123"⟩⟩]
        (Except.ok (StripeEvent.customerSubscriptionUpdated
          ⟨"sub_789", "canceled", 0, false⟩)) =
      (⟨200, "received: true"⟩,
        [checkoutRecord sampleSession sampleSubscription ⟨⟨"price_123"⟩⟩]) :=
  c7_zero_rows_noop sampleRetrieve
    [checkoutRecord sampleSession sampleSubscription ⟨⟨"price_123"⟩⟩]
    ⟨"sub_789", "canceled", 0, false⟩ (by decide)

/-- C8: in both create-checkout variants, a request with priceId or userId
missing or empty is answered 400 and makes zero provider calls; a request
with both fields present whose provider call throws is answered 500 with the
fixed body Error creating checkout session, a constant independent of the
thrown detail, so no provider error detail reaches the caller. -/
theorem c8_create_checkout_validation
    (createSession createSessionFail :
      CheckoutSessionParams → Except String CheckoutSessionResult)
    (appUrl : String) (priceId userId : Option String) (p u : String)
    (hmissing : jsFalsy priceId = true ∨ jsFalsy userId = true)
    (hp : p.isEmpty = false) (hu : u.isEmpty = false)
    (hfail : ∀ params : CheckoutSessionParams,
      ∃ d : String, createSessionFail params = Except.error d) :
    serverCreateCheckout createSession appUrl priceId userId =
      (⟨400, "Price ID and User ID are required"⟩, 0) ∧
    part000CreateCheckout createSession appUrl priceId userId =
      (⟨400, "Price ID and User ID are required"⟩, 0) ∧
    (serverCreateCheckout createSessionFail appUrl (some p) (some u)).1 =
      ⟨500, "Error creating checkout session"⟩ ∧
    (part000CreateCheckout createSessionFail appUrl (some p) (some u)).1 =
      ⟨500, "Error creating checkout session"⟩ := by
  have hcond : (jsFalsy priceId || jsFalsy userId) = true := by
    rcases hmissing with h | h <;> simp [h]
  have hval : (jsFalsy (some p) || jsFalsy (some u)) = false := by
    simp [jsFalsy, hp, hu]
  refine ⟨?_, ?_, ?_, ?_⟩
  · rw [serverCreateCheckout, if_pos hcond]
  · rw [part000CreateCheckout, if_pos hcond]
  · rw [serverCreateCheckout, if_neg (by simp [hval])]
    obtain ⟨d, hd⟩ := hfail
      { mode := "subscription"
        client_reference_id := (some u).getD ""
        price := (some p).getD ""
        quantity := 1
        success_url := appUrl ++ "?session_id=\x7bCHECKOUT_SESSION_ID\x7d"
        cancel_url := appUrl }
    rw [hd]
  · rw [part000CreateCheckout, if_neg (by simp [hval])]
    obtain ⟨d, hd⟩ := hfail
      { mode := "subscription"
        client_reference_id := (some u).getD ""
        price := (some p).getD ""
        quantity := 1
        success_url := appUrl ++ "/success?session_id=\x7bCHECKOUT_SESSION_ID\x7d"
        cancel_url := appUrl ++ "/canceled" }
    rw [hd]

/-- Witness for C8: missing userId, and a provider that always throws. -/
theorem c8_create_checkout_validation_witness :
    serverCreateCheckout (fun _ => Except.error "rate limit")
        "https://app.example" (some "price_123") none =
      (⟨400, "Price ID and User ID are required"⟩, 0) ∧
    part000CreateCheckout (fun _ => Except.error "rate limit")
        "https://app.example" (some "price_123") none =
      (⟨400, "Price ID and User ID are required"⟩, 0) ∧
    (serverCreateCheckout (fun _ => Except.error "rate limit")
        "https://app.example" (some "price_123") (some "user_abc")).1 =
      ⟨500, "Error creating checkout session"⟩ ∧
    (part000CreateCheckout (fun _ => Except.error "rate limit")
        "https://app.example" (some "price_123") (some "user_abc")).1 =
      ⟨500, "Error creating checkout session"⟩ :=
  c8_create_checkout_validation (fun _ => Except.error "rate limit")
    (fun _ => Except.error "rate limit") "https://app.example"
    (some "price_123") none "price_123" "user_abc"
    (Or.inr rfl) rfl rfl (fun _ => ⟨"rate limit", rfl⟩)

/-- C9 counterexample: the claim says the 400 body includes the verification
failure reason in every variant, but the route.ts variant (and likewise
part_001) answers a fixed body that does not contain the reason thrown by
constructEvent. -/
theorem c9_fixed_message_counterexample :
    (routeWebhook (some "t=1,v1=bad")
        (Except.error "Unable to extract timestamp and signatures from header")).status
      = 400 ∧
    (routeWebhook (some "t=1,v1=bad")
        (Except.error "Unable to extract timestamp and signatures from header")).body
      = "Webhook signature verification failed" ∧
    strContains
      (routeWebhook (some "t=1,v1=bad")
        (Except.error "Unable to extract timestamp and signatures from header")).body
      "Unable to extract timestamp and signatures from header" = false ∧
    (part001Webhook sampleRetrieve [] (some "t=1,v1=bad")
        (Except.error "Unable to extract timestamp and signatures from header") 0).1.body
      = "Webhook signature verification failed" := by
  refine ⟨rfl, rfl, ?_, rfl⟩
  rfl

/-- C9 amended: on a verification failure the server.js variant answers 400
with a body that interpolates, hence contains, the thrown reason, while the
route.ts and part_001 variants answer 400 with the fixed body Webhook
signature verification failed, independent of the reason. -/
theorem c9_amended_per_variant
    (retrieve : String → Option StripeSubscription) (db : List SubRecord)
    (db1 : List Part001Record) (msg sig : String) (now : Int) :
    (serverWebhook retrieve db (Except.error msg)).1.status = 400 ∧
    (serverWebhook retrieve db (Except.error msg)).1.body =
      "Webhook Error: " ++ msg ∧
    strContains (serverWebhook retrieve db (Except.error msg)).1.body msg
      = true ∧
    (routeWebhook (some sig) (Except.error msg)).status = 400 ∧
    (routeWebhook (some sig) (Except.error msg)).body =
      "Webhook signature verification failed" ∧
    (part001Webhook retrieve db1 (some sig) (Except.error msg) now).1.status
      = 400 ∧
    (part001Webhook retrieve db1 (some sig) (Except.error msg) now).1.body =
      "Webhook signature verification failed" :=
  ⟨rfl, rfl, strContains_append "Webhook Error: " msg, rfl, rfl, rfl, rfl⟩

/-- C10: the checkout.session.completed handler reads the first line item of
the fetched subscription without an emptiness check; when the fetched
subscription has zero line items the JS member access throws, so the handler
fails before any table write: the endpoint answers 400 and the table is
unchanged, in server.js as well as in part_001. -/
theorem c10_empty_line_items
    (retrieve : String → Option StripeSubscription) (db : List SubRecord)
    (db1 : List Part001Record) (session : CheckoutSession)
    (subscription : StripeSubscription) (sig : String) (now : Int)
    (hret : retrieve session.subscription = some subscription)
    (hempty : subscription.items.data = []) :
    (serverWebhook retrieve db
        (Except.ok (StripeEvent.checkoutSessionCompleted session))).1.status
      = 400 ∧
    (serverWebhook retrieve db
        (Except.ok (StripeEvent.checkoutSessionCompleted session))).2 = db ∧
    (part001Webhook retrieve db1 (some sig)
        (Except.ok (StripeEvent.checkoutSessionCompleted session)) now).1.status
      = 400 ∧
    (part001Webhook retrieve db1 (some sig)
        (Except.ok (StripeEvent.checkoutSessionCompleted session)) now).2 = db1 := by
  refine ⟨?_, ?_, ?_, ?_⟩ <;> simp [serverWebhook, part001Webhook, hret, hempty]

/-- Witness for C10: a provider whose subscription has zero line items. -/
theorem c10_empty_line_items_witness :
    (serverWebhook
        (fun _ => some
          { id := "sub_empty", status := "active", current_period_end := 0,
            current_period_start := 0, cancel_at_period_end := false,
            items := ⟨[]⟩ })
        []
        (Except.ok (StripeEvent.checkoutSessionCompleted sampleSession))).1.status
      = 400 ∧
    (serverWebhook
        (fun _ => some
          { id := "sub_empty", status := "active", current_period_end := 0,
            current_period_start := 0, cancel_at_period_end := false,
            items := ⟨[]⟩ })
        []
        (Except.ok (StripeEvent.checkoutSessionCompleted sampleSession))).2 = [] ∧
    (part001Webhook
        (fun _ => some
          { id := "sub_empty", status := "active", current_period_end := 0,
            current_period_start := 0, cancel_at_period_end := false,
            items := ⟨[]⟩ })
        [] (some "t=1,v1=abc")
        (Except.ok (StripeEvent.checkoutSessionCompleted sampleSession)) 0).1.status
      = 400 ∧
    (part001Webhook
        (fun _ => some
          { id := "sub_empty", status := "active", current_period_end := 0,
            current_period_start := 0, cancel_at_period_end := false,
            items := ⟨[]⟩ })
        [] (some "t=1,v1=abc")
        (Except.ok (StripeEvent.checkoutSessionCompleted sampleSession)) 0).2 = [] :=
  c10_empty_line_items
    (fun _ => some
      { id := "sub_empty", status := "active", current_period_end := 0,
        current_period_start := 0, cancel_at_period_end := false,
        items := ⟨[]⟩ })
    [] [] sampleSession
    { id := "sub_empty", status := "active", current_period_end := 0,
      current_period_start := 0, cancel_at_period_end := false,
      items := ⟨[]⟩ }
    "t=1,v1=abc" 0 rfl rfl

end BloopiT
